import Mathlib

/-!
Verification of the metatile-to-atlas compilation engine of MonoBall-v2
(packages porycon / porycon2).

The Python sources are shallowly embedded below:
* PIL RGBA images are modelled as a size plus a total pixel function;
  indexed-colour (PIL mode P) images likewise with Nat pixels.
* PIL paste-with-RGBA-mask is modelled by the per-channel linear blend
  (src*a + dest*(255-a))/255, which is exact at the alpha values 0 and
  255 produced by this pipeline.
* Python dicts are insertion-ordered association lists, Python
  exceptions are the Except monad.
-/

/-- One RGBA pixel: (r, g, b, a). -/
abbrev RGBA : Type := Nat × Nat × Nat × Nat

/-- An RGBA raster image (PIL mode RGBA): dimensions plus a total pixel
function; out-of-range coordinates are irrelevant to all operations. -/
structure Img where
  w : Nat
  h : Nat
  pix : Nat → Nat → RGBA

/-- An indexed-colour image (PIL mode P): each pixel is a palette index. -/
structure PImg where
  w : Nat
  h : Nat
  pix : Nat → Nat → Nat

/-- Image.new('RGBA', (w, h), (0, 0, 0, 0)). -/
def blankImg (w h : Nat) : Img := ⟨w, h, fun _ _ => (0, 0, 0, 0)⟩

/-- Alpha channel of a pixel. -/
def alphaOf (c : RGBA) : Nat := c.2.2.2

/-- PIL paste with an RGBA mask blends each channel as
(src*a + dest*(255-a))/255 where a is the mask (= source) alpha; at
a = 0 the destination is kept, at a = 255 the source is copied. -/
def blendPix (d s : RGBA) : RGBA :=
  let a := alphaOf s
  ( (s.1 * a + d.1 * (255 - a)) / 255,
    (s.2.1 * a + d.2.1 * (255 - a)) / 255,
    (s.2.2.1 * a + d.2.2.1 * (255 - a)) / 255,
    (s.2.2.2 * a + d.2.2.2 * (255 - a)) / 255 )

/-- dest.paste(src, (ox, oy), src): paste src into dest at offset
(ox, oy), using src's own alpha as the mask. -/
def pasteMask (dest src : Img) (ox oy : Nat) : Img :=
  { w := dest.w, h := dest.h,
    pix := fun x y =>
      if ox ≤ x ∧ x < ox + src.w ∧ oy ≤ y ∧ y < oy + src.h then
        blendPix (dest.pix x y) (src.pix (x - ox) (y - oy))
      else dest.pix x y }

/-- img.transpose(Image.FLIP_LEFT_RIGHT). -/
def flipLeftRight (i : Img) : Img :=
  { i with pix := fun x y => i.pix (i.w - 1 - x) y }

/-- img.transpose(Image.FLIP_TOP_BOTTOM). -/
def flipTopBottom (i : Img) : Img :=
  { i with pix := fun x y => i.pix x (i.h - 1 - y) }

/-- img.tobytes(): the row-major RGBA byte stream of the image. -/
def tobytes (i : Img) : List Nat :=
  (List.range i.h).flatMap fun y =>
    (List.range i.w).flatMap fun x =>
      [ (i.pix x y).1, (i.pix x y).2.1, (i.pix x y).2.2.1, (i.pix x y).2.2.2 ]

/-! ## constants.py -/

def NUM_METATILES_IN_PRIMARY : Nat := 512
def NUM_TILES_IN_PRIMARY_VRAM : Nat := 512
def TILE_SIZE : Nat := 8
def METATILE_SIZE : Nat := 16
def NUM_TILES_PER_METATILE : Nat := 8
def METATILE_ID_MASK : Nat := 0x03FF
def FLIP_HORIZONTAL : Nat := 0x01
def FLIP_VERTICAL : Nat := 0x02

/-! ## palette_loader.py -/

/-- apply_palette_to_tile (palette_loader.py): apply a 16-colour palette
to a P-mode tile.  The embedded argument is the tile image's own PIL
palette (index → RGBA), used by the fallback branch that converts via
the embedded palette.  For a valid palette (length ≥ 16): index 0 is
forced fully transparent, other indices take the palette's RGB with
alpha 255 unless the resulting colour is magenta (255,0,255), which is
also forced fully transparent; indices beyond the palette read the
zero-padded flat palette, i.e. black. -/
def apply_palette_to_tile (t : PImg) (embedded : Nat → RGBA)
    (palette : List RGBA) : Img :=
  if palette.length < 16 then
    -- invalid palette: convert with the embedded palette, then
    -- _make_color_0_transparent forces index-0 pixels transparent
    { w := t.w, h := t.h,
      pix := fun x y =>
        if t.pix x y = 0 then (0, 0, 0, 0) else embedded (t.pix x y) }
  else
    { w := t.w, h := t.h,
      pix := fun x y =>
        let i := t.pix x y
        if i = 0 then (0, 0, 0, 0)
        else
          let c := palette.getD i (0, 0, 0, 0)
          if c.1 = 255 ∧ c.2.1 = 0 ∧ c.2.2.1 = 255 then (0, 0, 0, 0)
          else (c.1, c.2.1, c.2.2.1, 255) }

/-! ## metatile_renderer.py -/

/-- A loaded tileset graphic: the P-mode sheet plus its embedded PIL
palette (used when a tile is rendered without an external palette). -/
structure TilesetImage where
  sheet : PImg
  embedded : Nat → RGBA

/-- Number of addressable tiles of a loaded sheet:
(width // 8) * (height // 8); max_tile_id is this minus one. -/
def tileCount (ts : TilesetImage) : Nat :=
  (ts.sheet.w / TILE_SIZE) * (ts.sheet.h / TILE_SIZE)

/-- extract_tile: crop the 8x8 tile at the given id out of the sheet
(tiles_per_row = width // 8, row-major). -/
def extract_tile (ts : TilesetImage) (tile_id : Nat) : PImg :=
  let tiles_per_row := ts.sheet.w / TILE_SIZE
  let tx := (tile_id % tiles_per_row) * TILE_SIZE
  let ty := (tile_id / tiles_per_row) * TILE_SIZE
  { w := TILE_SIZE, h := TILE_SIZE,
    pix := fun u v => ts.sheet.pix (tx + u) (ty + v) }

/-- One tile reference of a metatile: (tile_id, flip_flags,
palette_index). -/
structure TileRef where
  tileId : Nat
  flipFlags : Nat
  paletteIndex : Nat
deriving DecidableEq, Repr

/-- The renderer's collaborators: load_tileset_image and
load_tileset_palettes_cached, keyed by tileset name (the LRU caches are
pure memoisation and semantically transparent). -/
structure BankEnv where
  lookupImage : String → Option TilesetImage
  lookupPalettes : String → List (Option (List RGBA))

/-- The raster-source resolution of _render_tile_grid: which tileset
sheet and which index inside it supply a tile's pixels; none means the
tile is skipped (rendered transparent).  Mirrors the
tile_id < 512 / fallback logic verbatim; the bounds test
0 <= actual_tile_id <= max_tile_id is written actual < count, which is
equivalent on naturals (including an empty sheet). -/
def resolveRasterSource (env : BankEnv)
    (primaryName secondaryName : String) (tile_id : Nat) :
    Option (String × Nat × TilesetImage) :=
  let (tilesetName, actualTileId, useFallback) :=
    if tile_id < NUM_TILES_IN_PRIMARY_VRAM then
      (primaryName, tile_id, false)
    else
      (secondaryName, tile_id - NUM_TILES_IN_PRIMARY_VRAM, true)
  match env.lookupImage tilesetName with
  | none =>
      -- tileset not found: fall back to primary at the same offset
      if useFallback ∧ tilesetName ≠ primaryName then
        match env.lookupImage primaryName with
        | none => none
        | some img =>
            if actualTileId < tileCount img then
              some (primaryName, actualTileId, img)
            else none
      else none
  | some img =>
      if actualTileId < tileCount img then
        some (tilesetName, actualTileId, img)
      else
        -- tile id out of bounds: try the primary sheet as fallback
        if useFallback ∧ tilesetName ≠ primaryName then
          match env.lookupImage primaryName with
          | none => none
          | some fallbackImg =>
              if actualTileId < tileCount fallbackImg then
                some (primaryName, actualTileId, fallbackImg)
              else none
        else none

/-- The palette-source resolution of _render_tile_grid:
palette_index >= 6 uses the secondary tileset's palettes when a
secondary tileset name is present (Python string truthiness), else the
primary tileset's. -/
def paletteSourceName (primaryName secondaryName : String)
    (palette_index : Nat) : String :=
  if 6 ≤ palette_index ∧ secondaryName ≠ "" then secondaryName
  else primaryName

/-- The per-tile body of the _render_tile_grid loop: resolve the raster
source, extract the 8x8 tile, apply the resolved palette (or convert
via the embedded palette when none is available), apply flips.  Returns
none when the loop does continue (empty tile id, unresolvable raster). -/
def render_tile_body (env : BankEnv) (primaryName secondaryName : String)
    (ref : TileRef) : Option Img :=
  if ref.tileId = 0 then none
  else
    match resolveRasterSource env primaryName secondaryName ref.tileId with
    | none => none
    | some (_, actualTileId, tsImg) =>
        let tile := extract_tile tsImg actualTileId
        let palSource := paletteSourceName primaryName secondaryName ref.paletteIndex
        let palettes := env.lookupPalettes palSource
        let colored :=
          match palettes.getD ref.paletteIndex none with
          | some pal =>
              if palettes ≠ [] ∧ ref.paletteIndex < palettes.length ∧ pal ≠ [] then
                apply_palette_to_tile tile tsImg.embedded pal
              else
                -- no palette available: tile.convert('RGBA')
                { w := tile.w, h := tile.h,
                  pix := fun x y => tsImg.embedded (tile.pix x y) }
          | none =>
              { w := tile.w, h := tile.h,
                pix := fun x y => tsImg.embedded (tile.pix x y) }
        -- flip_flags & FLIP_HORIZONTAL, flip_flags & FLIP_VERTICAL
        let f1 := if ref.flipFlags % 2 = 1 then flipLeftRight colored else colored
        let f2 := if ref.flipFlags / 2 % 2 = 1 then flipTopBottom f1 else f1
        some f2

/-- Quadrant pixel offsets of _render_tile_grid:
[(0,0), (8,0), (0,8), (8,8)]. -/
def quadrantPos (idx : Nat) : Nat × Nat :=
  match idx with
  | 0 => (0, 0)
  | 1 => (TILE_SIZE, 0)
  | 2 => (0, TILE_SIZE)
  | _ => (TILE_SIZE, TILE_SIZE)

/-- One iteration of the _render_tile_grid loop: skip (continue) when
the tile renders to nothing, else paste the rendered tile at its
quadrant offset. -/
def gridStep (env : BankEnv) (primaryName secondaryName : String)
    (acc : Img) (pr : Nat × TileRef) : Img :=
  match render_tile_body env primaryName secondaryName pr.2 with
  | none => acc
  | some tileImg =>
      pasteMask acc tileImg (quadrantPos pr.1).1 (quadrantPos pr.1).2

/-- _render_tile_grid: render 4 tile refs into one 16x16 RGBA image,
pasting each rendered tile at its quadrant offset; none when not given
exactly 4 tiles. -/
def render_tile_grid (env : BankEnv) (primaryName secondaryName : String)
    (tiles : List TileRef) : Option Img :=
  if tiles.length ≠ 4 then none
  else
    some <| tiles.enum.foldl (gridStep env primaryName secondaryName)
      (blankImg METATILE_SIZE METATILE_SIZE)

/-! ## metatile.py -/

/-- MetatileLayerType (an IntEnum with members 0, 1, 2). -/
inductive MetatileLayerType where
  | NORMAL
  | COVERED
  | SPLIT
deriving DecidableEq, Repr

/-- MetatileLayerType(value): the IntEnum constructor; values outside
{0, 1, 2} raise ValueError, modelled as none. -/
def layerTypeOfVal (v : Nat) : Option MetatileLayerType :=
  if v = 0 then some .NORMAL
  else if v = 1 then some .COVERED
  else if v = 2 then some .SPLIT
  else none

/-- render_metatile: split the 8 refs into bottom (0-3) and top (4-7),
render each half; for SPLIT, a missing half becomes a blank 16x16; all
layer types return (bottom, top) as full images. -/
def render_metatile (env : BankEnv) (primaryName secondaryName : String)
    (metatile_tiles : List TileRef) (layer_type : MetatileLayerType) :
    Option Img × Option Img :=
  if metatile_tiles.length ≠ NUM_TILES_PER_METATILE then (none, none)
  else
    let bottom := render_tile_grid env primaryName secondaryName (metatile_tiles.take 4)
    let top := render_tile_grid env primaryName secondaryName (metatile_tiles.drop 4)
    match layer_type with
    | .SPLIT =>
        (some (bottom.getD (blankImg METATILE_SIZE METATILE_SIZE)),
         some (top.getD (blankImg METATILE_SIZE METATILE_SIZE)))
    | _ => (bottom, top)

/-- extract_metatile_id: bits 0-9 of a map entry. -/
def extract_metatile_id (entry : Nat) : Nat := entry % 1024

/-! ## Atlas deduplication (process_single_metatile, image_to_gid) -/

/-- The image_to_gid dictionary: an insertion-ordered association list
from image byte content to assigned GID. -/
abbrev GidTable := List (List Nat × Nat)

/-- Dictionary lookup: image_to_gid.get(bytes). -/
def tableFind (t : GidTable) (b : List Nat) : Option Nat :=
  match t with
  | [] => none
  | (k, v) :: rest => if k = b then some v else tableFind rest b

/-- The deduplicating GID assignment of process_single_metatile
(lines 250-262 and 257-262): reuse the GID already mapped to this byte
content, otherwise assign next_gid, record it, and increment the
counter.  Returns (gid, updated table, updated next_gid). -/
def internalize (t : GidTable) (next : Nat) (b : List Nat) :
    Nat × GidTable × Nat :=
  match tableFind t b with
  | some gid => (gid, t, next)
  | none => (next, t ++ [(b, next)], next + 1)

/-- A whole-run internalisation: _process_metatiles initialises
image_to_gid = {} and next_gid = 1, then internalises contents one at a
time. -/
def runDedup (contents : List (List Nat)) : GidTable × Nat :=
  contents.foldl (fun s b => (internalize s.1 s.2 b).2) ([], 1)

/-! ## map_reader.py -/

/-- struct.unpack('<H', two bytes): little-endian 16-bit read. -/
def readU16LE (lo hi : Nat) : Nat := lo + 256 * hi

/-- The entry-collection loop of read_map_bin: consume the byte stream
two bytes at a time; a trailing odd byte fails the i + 1 < len(data)
guard and is dropped. -/
def parseU16Pairs : List Nat → List Nat
  | lo :: hi :: rest => readU16LE lo hi :: parseU16Pairs rest
  | _ => []

/-- read_map_bin: parse the 16-bit records and reshape to height rows
of width entries; raises ValueError (modelled as Except.error) when the
record count does not equal width * height. -/
def read_map_bin (data : List Nat) (width height : Nat) :
    Except String (List (List Nat)) :=
  let entries := parseU16Pairs data
  if entries.length ≠ width * height then
    Except.error "entry count mismatch"
  else
    Except.ok <|
      (List.range height).map fun y =>
        (List.range width).map fun x => entries.getD (y * width + x) 0

/-- _read_and_validate_map_data (converter.py): read with the declared
dimensions; on ValueError, infer alternate dimensions from the file
size (actual_entries = file_size // 2) and retry with the halved
dimensions when they account exactly for the file size, else give up
(none).  The two remaining paths (re-raise when actual = expected, and
failure of the retried read) are unreachable and also modelled none. -/
def read_and_validate_map_data (data : List Nat) (width height : Nat) :
    Option (List (List Nat) × Nat × Nat) :=
  match read_map_bin data width height with
  | .ok m => some (m, width, height)
  | .error _ =>
      let actual_entries := data.length / 2
      let expected_entries := width * height
      if actual_entries ≠ expected_entries then
        let half_width := width / 2
        let half_height := height / 2
        if 0 < half_width ∧ 0 < half_height ∧
            actual_entries = half_width * half_height then
          match read_map_bin data half_width half_height with
          | .ok m => some (m, half_width, half_height)
          | .error _ => none
        else none
      else none

/-! ## converter.py: _build_map_layers -/

/-- The per-cell plane assignment of _build_map_layers: given the cell's
layer type and its bottom/top GIDs, the values written into the three
plane grids at that cell, as (bg3 ground, bg2 objects, bg1 overhead);
the plane that is not written keeps its initial value 0. -/
def assignCellLayers (layer_type : MetatileLayerType)
    (bottom_gid top_gid : Nat) : Nat × Nat × Nat :=
  match layer_type with
  | .NORMAL => (0, bottom_gid, top_gid)
  | .COVERED => (bottom_gid, top_gid, 0)
  | .SPLIT => (bottom_gid, 0, top_gid)

/-- metatile_to_gid dictionary keys: (metatile_id, tileset_name,
layer_type_val, is_top). -/
abbrev MetatileGidKey := Nat × String × Nat × Bool

/-- Association-list model of the metatile_to_gid dict. -/
def gidLookup (m : List (MetatileGidKey × Nat)) (k : MetatileGidKey) : Nat :=
  match m with
  | [] => 0
  | (k0, v) :: rest => if k0 = k then v else gidLookup rest k

/-- Association-list lookup with Nat keys (attributes.get(id, 0) uses
default 0 at the call sites). -/
def tableFindNat (t : List (Nat × Nat)) (k : Nat) : Option Nat :=
  match t with
  | [] => none
  | (k0, v) :: rest => if k0 = k then some v else tableFindNat rest k

/-! ## metatile_processor.py -/

/-- Generic association-list lookup (Python dict read). -/
def assocFind {κ ν : Type} [DecidableEq κ] (t : List (κ × ν)) (k : κ) :
    Option ν :=
  match t with
  | [] => none
  | (k0, v) :: rest => if k0 = k then some v else assocFind rest k

/-- Append a value to the list stored under a key of an
insertion-ordered multimap (tile_id_to_gids building). -/
def multiAdd {κ ν : Type} [DecidableEq κ] (m : List (κ × List ν))
    (k : κ) (v : ν) : List (κ × List ν) :=
  match m with
  | [] => [(k, [v])]
  | (k0, vs) :: rest =>
      if k0 = k then (k0, vs ++ [v]) :: rest
      else (k0, vs) :: multiAdd rest k v

/-- determine_tileset_for_tile: for a metatile of the primary tileset
every tile id stays in the primary; for a secondary-tileset metatile,
ids below 512 refer to the primary and ids from 512 up refer to the
secondary at tile_id - 512. -/
def determine_tileset_for_tile (tile_id : Nat)
    (current_tileset_name primary_tileset secondary_tileset : String) :
    String × Nat :=
  if current_tileset_name = primary_tileset then (primary_tileset, tile_id)
  else if tile_id < NUM_TILES_IN_PRIMARY_VRAM then (primary_tileset, tile_id)
  else (secondary_tileset, tile_id - NUM_TILES_IN_PRIMARY_VRAM)

/-- determine_tileset_for_metatile: metatile ids below 512 belong to
the primary tileset, the rest to the secondary at id - 512. -/
def determine_tileset_for_metatile (metatile_id : Nat)
    (primary_tileset secondary_tileset : String) : String × Nat :=
  if metatile_id < NUM_METATILES_IN_PRIMARY then
    (primary_tileset, metatile_id)
  else
    (secondary_tileset, metatile_id - NUM_METATILES_IN_PRIMARY)

/-- validate_metatile_bounds: the metatile's 8 records must fit inside
the composition list (the start_idx < 0 and actual_metatile_id < 0
tests of the source are vacuous on naturals). -/
def validate_metatile_bounds (actual_metatile_id : Nat)
    (metatiles_with_attrs : List TileRef) : Bool :=
  let start_idx := actual_metatile_id * NUM_TILES_PER_METATILE
  let end_idx := start_idx + NUM_TILES_PER_METATILE
  ¬(end_idx > metatiles_with_attrs.length ∨
    metatiles_with_attrs.length < NUM_TILES_PER_METATILE)

/-- The used_metatiles dictionary: (metatile_id, tileset, layer_type) →
(bottom image, top image). -/
abbrev UsedMetatiles := List ((Nat × String × Nat) × (Img × Img))

/-- Entries of tile_id_to_gids: (layer_gid, metatile_key,
tile_position). -/
abbrev TileGidEntry := Nat × (Nat × String × Nat) × Nat

/-- The tile_id_to_gids loop of process_single_metatile: for each of
the 8 tile positions, record (layer_gid, metatile_key, position) under
the key (tile_id, source tileset), where layer_gid is the bottom GID
for positions 0-3 and the top GID for positions 4-7. -/
def buildTileIdToGids (metatile_tiles : List TileRef)
    (tileset_name primary_tileset secondary_tileset : String)
    (metatile_key : Nat × String × Nat) (bottom_gid top_gid : Nat) :
    List ((Nat × String) × List TileGidEntry) :=
  metatile_tiles.enum.foldl
    (fun m p =>
      let pos := p.1
      let ref := p.2
      let src := (determine_tileset_for_tile ref.tileId tileset_name
        primary_tileset secondary_tileset).1
      let layer_gid := if pos < 4 then bottom_gid else top_gid
      multiAdd m (ref.tileId, src) (layer_gid, metatile_key, pos))
    []

/-- The value returned by process_single_metatile, together with the
used_metatiles dictionary it mutates in place. -/
structure ProcessResult where
  images : Option (Img × Img)
  metatileToGid : List (MetatileGidKey × Nat)
  tileIdToGids : List ((Nat × String) × List TileGidEntry)
  metatileTiles : Option (List TileRef)
  usedMetatiles : UsedMetatiles
  imageToGid : GidTable
  nextGid : Nat

/-- process_single_metatile: look up the layer type (raising ValueError
for attribute nibbles outside the enum, modelled as Except.error),
validate bounds, render the metatile if unseen, and assign GIDs to the
bottom and top composites through the deduplication table. -/
def process_single_metatile (env : BankEnv) (actual_metatile_id : Nat)
    (tileset_name : String) (metatiles_with_attrs : List TileRef)
    (attributes : List (Nat × Nat))
    (primary_tileset secondary_tileset : String)
    (used_metatiles : UsedMetatiles) (image_to_gid : GidTable)
    (next_gid : Nat) : Except String ProcessResult :=
  let layer_type_val := (tableFindNat attributes actual_metatile_id).getD 0
  match layerTypeOfVal layer_type_val with
  | none => Except.error "ValueError: not a valid MetatileLayerType"
  | some layer_type =>
    let key := (actual_metatile_id, tileset_name, layer_type_val)
    let emptyBranch : Except String ProcessResult :=
      match assocFind used_metatiles key with
      | none =>
          let empty_img := blankImg METATILE_SIZE METATILE_SIZE
          let used2 := used_metatiles ++ [(key, (empty_img, empty_img))]
          let r := internalize image_to_gid next_gid (tobytes empty_img)
          Except.ok
            { images := none,
              metatileToGid :=
                [((actual_metatile_id, tileset_name, layer_type_val, false), r.1),
                 ((actual_metatile_id, tileset_name, layer_type_val, true), r.1)],
              tileIdToGids := [], metatileTiles := none,
              usedMetatiles := used2, imageToGid := r.2.1, nextGid := r.2.2 }
      | some imgs =>
          -- already processed: re-derive the GIDs, with the source's
          -- defensive double-default get (lines 192-199)
          let bb := tobytes imgs.1
          let tb := tobytes imgs.2
          let bottom_gid := (tableFind image_to_gid bb).getD next_gid
          let top_gid := (tableFind image_to_gid tb).getD (next_gid + 1)
          let s1 :=
            if tableFind image_to_gid bb = none then
              (image_to_gid ++ [(bb, bottom_gid)], next_gid + 1)
            else (image_to_gid, next_gid)
          let s2 :=
            if tableFind s1.1 tb = none then
              (s1.1 ++ [(tb, top_gid)], s1.2 + 1)
            else s1
          Except.ok
            { images := some imgs,
              metatileToGid :=
                [((actual_metatile_id, tileset_name, layer_type_val, false), bottom_gid),
                 ((actual_metatile_id, tileset_name, layer_type_val, true), top_gid)],
              tileIdToGids := [], metatileTiles := none,
              usedMetatiles := used_metatiles,
              imageToGid := s2.1, nextGid := s2.2 }
    if ¬ validate_metatile_bounds actual_metatile_id metatiles_with_attrs then
      emptyBranch
    else
      let start_idx := actual_metatile_id * NUM_TILES_PER_METATILE
      let metatile_tiles :=
        (metatiles_with_attrs.drop start_idx).take NUM_TILES_PER_METATILE
      if metatile_tiles.length ≠ NUM_TILES_PER_METATILE then
        emptyBranch
      else
        match assocFind used_metatiles key with
        | none =>
            let rendered := render_metatile env primary_tileset
              secondary_tileset metatile_tiles layer_type
            let bottom_img :=
              rendered.1.getD (blankImg METATILE_SIZE METATILE_SIZE)
            let top_img :=
              rendered.2.getD (blankImg METATILE_SIZE METATILE_SIZE)
            let used2 := used_metatiles ++ [(key, (bottom_img, top_img))]
            let rb := internalize image_to_gid next_gid (tobytes bottom_img)
            let rt := internalize rb.2.1 rb.2.2 (tobytes top_img)
            Except.ok
              { images := some (bottom_img, top_img),
                metatileToGid :=
                  [((actual_metatile_id, tileset_name, layer_type_val, false), rb.1),
                   ((actual_metatile_id, tileset_name, layer_type_val, true), rt.1)],
                tileIdToGids := buildTileIdToGids metatile_tiles
                  tileset_name primary_tileset secondary_tileset key rb.1 rt.1,
                metatileTiles := some metatile_tiles,
                usedMetatiles := used2,
                imageToGid := rt.2.1, nextGid := rt.2.2 }
        | some imgs =>
            -- already processed: lines 284-325
            let bb := tobytes imgs.1
            let tb := tobytes imgs.2
            let bg0 := tableFind image_to_gid bb
            let tg0 := tableFind image_to_gid tb
            let step :=
              match bg0, tg0 with
              | some bg, some tg => (bg, tg, image_to_gid, next_gid)
              | _, _ =>
                  -- defensive recovery: insert-if-missing, in order
                  let rb := internalize image_to_gid next_gid bb
                  let rt := internalize rb.2.1 rb.2.2 tb
                  (rb.1, rt.1, rt.2.1, rt.2.2)
            Except.ok
              { images := some imgs,
                metatileToGid :=
                  [((actual_metatile_id, tileset_name, layer_type_val, false), step.1),
                   ((actual_metatile_id, tileset_name, layer_type_val, true), step.2.1)],
                tileIdToGids := buildTileIdToGids metatile_tiles
                  tileset_name primary_tileset secondary_tileset key
                  step.1 step.2.1,
                metatileTiles := some metatile_tiles,
                usedMetatiles := used_metatiles,
                imageToGid := step.2.2.1, nextGid := step.2.2.2 }

/-- The grid pass of _build_map_layers over a row-major map of entries.
Each cell resolves its metatile's tileset via
determine_tileset_for_metatile, reads that tileset's attributes
(default layer type 0), converts the layer-type value (a cell whose
value is outside the enum makes the whole pass None, modelling the
ValueError the Python MetatileLayerType call raises — see the C8
analysis), looks up the two GIDs and writes them into the planes
dictated by the layer type; unwritten planes keep their initial 0. -/
def build_map_layers (map_entries : List (List Nat)) (width height : Nat)
    (metatile_to_gid : List (MetatileGidKey × Nat))
    (primary_attributes secondary_attributes : List (Nat × Nat))
    (primary_tileset secondary_tileset : String) :
    Option (List Nat × List Nat × List Nat) :=
  let cells := (List.range height).flatMap fun y =>
    (List.range width).map fun x =>
      ((map_entries.getD y []).getD x 0)
  let results := cells.map fun entry =>
    let metatile_id := extract_metatile_id entry
    let resolved := determine_tileset_for_metatile metatile_id
      primary_tileset secondary_tileset
    let tileset_name := resolved.1
    let actual_metatile_id := resolved.2
    let attributes :=
      if tileset_name = primary_tileset then primary_attributes
      else secondary_attributes
    let layer_type_val :=
      match tableFindNat attributes actual_metatile_id with
      | some v => v
      | none => 0
    match layerTypeOfVal layer_type_val with
    | none => none
    | some lt =>
        let bottom_gid := gidLookup metatile_to_gid
          (actual_metatile_id, tileset_name, layer_type_val, false)
        let top_gid := gidLookup metatile_to_gid
          (actual_metatile_id, tileset_name, layer_type_val, true)
        some (assignCellLayers lt bottom_gid top_gid)
  if results.all (·.isSome) then
    let triples := results.map (·.getD (0, 0, 0))
    some (triples.map (·.1), triples.map (·.2.1), triples.map (·.2.2))
  else none


/-! ## converter.py: _build_metatile_animations (PHASE 2) -/

/-- One entry of a metatile's anim_info_list (the 10-tuple collected in
PHASE 1): (anim_name, frames, duration_ms, frame_sequence,
actual_base_tile_id, num_tiles, animated_tile_range, is_metatile,
layer_gid, tile_position).  The animated_tile_range set is
range(actual_base_tile_id, actual_base_tile_id + num_tiles) and is kept
derived. -/
structure AnimInfo where
  name : String
  frames : List Img
  durationMs : Nat
  frameSeq : Option (List Nat)
  actualBase : Nat
  numTiles : Nat
  isMetatile : Bool
  animLayerGid : Nat
  tilePosition : Nat

/-- Membership in animated_tile_range. -/
def inAnimatedRange (info : AnimInfo) (tile_id : Nat) : Prop :=
  info.actualBase ≤ tile_id ∧ tile_id < info.actualBase + info.numTiles

instance (info : AnimInfo) (tile_id : Nat) :
    Decidable (inAnimatedRange info tile_id) := by
  unfold inAnimatedRange; infer_instance

/-- Values of the all_bottom_tiles / all_top_tiles dicts. -/
structure StripInfo where
  tileId : Nat
  flipFlags : Nat
  name : String
  frames : List Img
  actualBase : Nat
  numTiles : Nat
  frameSeq : Option (List Nat)
  durationMs : Nat

/-- Python dict write d[k] = v: update in place when the key exists
(keeping its position), else append. -/
def ordUpdate {κ ν : Type} [DecidableEq κ] (m : List (κ × ν)) (k : κ)
    (v : ν) : List (κ × ν) :=
  match m with
  | [] => [(k, v)]
  | (k0, v0) :: rest =>
      if k0 = k then (k0, v) :: rest else (k0, v0) :: ordUpdate rest k v

/-- Python set.add, modelled as an insertion-ordered duplicate-free
list (the source iterates these small integer sets; iteration order is
not semantically relevant to the claims proved here). -/
def setAdd (s : List Nat) (g : Nat) : List Nat :=
  if g ∈ s then s else s ++ [g]

/-- The collection loop of the strip branch: split anim_info_list into
per-quadrant substitution tables for the bottom (positions 0-3, keyed
by position) and the top (positions 4-7, keyed by position - 4), kept
only when the metatile's tile at that position lies in the animation's
tile range, also accumulating the affected layer GIDs. -/
def collectStripTiles (anim_info_list : List AnimInfo)
    (metatile_tiles : List TileRef) :
    List (Nat × StripInfo) × List (Nat × StripInfo) × List Nat × List Nat :=
  anim_info_list.foldl
    (fun acc info =>
      let pos := info.tilePosition
      let tr := metatile_tiles.getD pos ⟨0, 0, 0⟩
      let si : StripInfo :=
        ⟨tr.tileId, tr.flipFlags, info.name, info.frames, info.actualBase,
         info.numTiles, info.frameSeq, info.durationMs⟩
      if pos < 4 then
        if inAnimatedRange info tr.tileId then
          (ordUpdate acc.1 pos si, acc.2.1,
           setAdd acc.2.2.1 info.animLayerGid, acc.2.2.2)
        else acc
      else
        if inAnimatedRange info tr.tileId then
          (acc.1, ordUpdate acc.2.1 (pos - 4) si,
           acc.2.2.1, setAdd acc.2.2.2 info.animLayerGid)
        else acc)
    ([], [], [], [])

/-- Per-step frame selection of the strip branch: frame_sequence when
truthy (indexed modulo its length), else frame_num modulo the
frames-per-cycle count, defaulting to 0 when that cannot be formed. -/
def stripActualFrame (frameSeq : Option (List Nat)) (framesLen numTiles
    frameNum : Nat) : Nat :=
  match frameSeq with
  | some s =>
      if s ≠ [] then s.getD (frameNum % s.length) 0
      else
        if 0 < numTiles ∧ 0 < framesLen then
          let fpc := framesLen / numTiles
          if 0 < fpc then frameNum % fpc else 0
        else 0
  | none =>
      if 0 < numTiles ∧ 0 < framesLen then
        let fpc := framesLen / numTiles
        if 0 < fpc then frameNum % fpc else 0
      else 0

/-- The number-of-frames contribution of one substitution entry:
len(frame_sequence) when truthy, else frames // num_tiles when
formable, else len(frames). -/
def stripNumFrames (si : StripInfo) : Nat :=
  match si.frameSeq with
  | some s =>
      if s ≠ [] then s.length
      else
        if 0 < si.numTiles ∧ 0 < si.frames.length then
          si.frames.length / si.numTiles
        else si.frames.length
  | none =>
      if 0 < si.numTiles ∧ 0 < si.frames.length then
        si.frames.length / si.numTiles
      else si.frames.length

/-- One per-step substituted composite of the strip branch: start from
the half's static composite and paste, at each recorded quadrant, the
animation's frame tile for this step with the static TileRef's flip
flags applied. -/
def stripComposite (base : Img) (tilesMap : List (Nat × StripInfo))
    (frameNum : Nat) : Img :=
  tilesMap.foldl
    (fun comp kv =>
      let pos := kv.1
      let si := kv.2
      let actual := stripActualFrame si.frameSeq si.frames.length
        si.numTiles frameNum
      let tile_offset := si.tileId - si.actualBase
      let frame_tile_idx := actual * si.numTiles + tile_offset
      if frame_tile_idx < si.frames.length then
        let ft := si.frames.getD frame_tile_idx (blankImg TILE_SIZE TILE_SIZE)
        let f1 := if si.flipFlags % 2 = 1 then flipLeftRight ft else ft
        let f2 := if si.flipFlags / 2 % 2 = 1 then flipTopBottom f1 else f1
        pasteMask comp f2 ((pos % 2) * TILE_SIZE) ((pos / 2) * TILE_SIZE)
      else comp)
    base

/-- The duration folding of the strip branch over
all_bottom_tiles + all_top_tiles (133 is the default). -/
def stripDuration (entries : List (Nat × StripInfo)) : Nat :=
  entries.foldl
    (fun acc kv =>
      if kv.2.durationMs ≠ 133 then kv.2.durationMs
      else if acc = 133 then kv.2.durationMs else acc)
    133

/-- What one metatile_key contributes in PHASE 2 of
_build_metatile_animations. -/
structure AnimOut where
  animations : List (Nat × List (Nat × Nat))
  animFramesGids : List ((Nat × String × Nat) × Nat)
  tilesetTiles : List Img
  nextGid : Nat

/-- The body of the PHASE 2 loop of _build_metatile_animations for one
metatile_key.  The atlas sheet is modelled as the slot-indexed list of
its 16x16 tiles (tilesetTiles, slot index = tile_idx); the geometric
paste positions and sheet growth are layout only.  The metatile branch
(pre-rendered 16x16 frames) registers each source frame once and maps
the playback order over those slots; the strip branch appends one
freshly composited tile per playback step for the bottom half, then,
when the top half is animated, one per step for the top half.  An
animation list entry is (gid - 1, [(tileid, duration), ...]). -/
def processMetatileAnimationGroup (metatile_key : Nat × String × Nat)
    (anim_info_list : List AnimInfo) (gid_list : List Nat)
    (used_metatiles : UsedMetatiles)
    (metatile_composition : List ((Nat × String × Nat) × List TileRef))
    (used_gids : List Nat) (tilesetTiles : List Img) (next_gid : Nat) :
    AnimOut :=
  let unchanged : AnimOut := ⟨[], [], tilesetTiles, next_gid⟩
  if gid_list = [] then unchanged
  else
    match assocFind used_metatiles metatile_key with
    | none => unchanged
    | some baseImgs =>
      match assocFind metatile_composition metatile_key with
      | none => unchanged
      | some metatile_tiles =>
        if anim_info_list.any (·.isMetatile) then
          -- metatile-frame branch: first is_metatile entry only, then break
          match anim_info_list.find? (·.isMetatile) with
          | none => unchanged
          | some info =>
              let startIdx := next_gid - 1
              let newTiles := tilesetTiles ++ info.frames
              let nextAfter := next_gid + info.frames.length
              let playback :=
                match info.frameSeq with
                | some s => if s ≠ [] then s else List.range info.frames.length
                | none => List.range info.frames.length
              let shared := playback.filterMap fun seqIdx =>
                if seqIdx < info.frames.length then
                  some (startIdx + seqIdx, info.durationMs)
                else none
              if info.animLayerGid ∈ used_gids ∧ shared ≠ [] then
                { animations := [(info.animLayerGid - 1, shared)],
                  animFramesGids := shared.enum.map fun p =>
                    ((metatile_key.1, metatile_key.2.1, p.1), p.2.1 + 1),
                  tilesetTiles := newTiles, nextGid := nextAfter }
              else
                { animations := [], animFramesGids := [],
                  tilesetTiles := newTiles, nextGid := nextAfter }
        else
          -- tile-strip branch
          let collected := collectStripTiles anim_info_list metatile_tiles
          let allBottom := collected.1
          let allTop := collected.2.1
          let bottomGids := collected.2.2.1
          let topGids := collected.2.2.2
          if allBottom.isEmpty ∧ allTop.isEmpty then unchanged
          else
            let maxFrames := (allBottom ++ allTop).foldl
              (fun m kv => max m (stripNumFrames kv.2)) 0
            let dur := stripDuration (allBottom ++ allTop)
            let n := if 0 < maxFrames then maxFrames else 8
            let bottomStart := next_gid - 1
            let bottomFrames := (List.range n).map fun frameNum =>
              stripComposite baseImgs.1 allBottom frameNum
            let afterBottomGid := next_gid + n
            let topFrames :=
              if ¬ allTop.isEmpty then
                (List.range n).map fun frameNum =>
                  stripComposite baseImgs.2 allTop frameNum
              else []
            let topStart := afterBottomGid - 1
            let finalGid := afterBottomGid + topFrames.length
            let newTiles := tilesetTiles ++ bottomFrames ++ topFrames
            let bottomPairs := (List.range n).map fun i => (bottomStart + i, dur)
            let topPairs :=
              if ¬ allTop.isEmpty then
                (List.range n).map fun i => (topStart + i, dur)
              else []
            let bottomAnims :=
              if bottomPairs ≠ [] ∧ ¬ allBottom.isEmpty then
                (bottomGids.filter (· ∈ used_gids)).map
                  fun g => (g - 1, bottomPairs)
              else []
            let bottomFrameGids :=
              if bottomPairs ≠ [] ∧ ¬ allBottom.isEmpty ∧
                  (bottomGids.filter (· ∈ used_gids)) ≠ [] then
                bottomPairs.enum.map fun p =>
                  ((metatile_key.1, metatile_key.2.1, p.1), p.2.1 + 1)
              else []
            let topAnims :=
              if topPairs ≠ [] ∧ ¬ allTop.isEmpty then
                (topGids.filter (· ∈ used_gids)).map fun g => (g - 1, topPairs)
              else []
            { animations := bottomAnims ++ topAnims,
              animFramesGids := bottomFrameGids,
              tilesetTiles := newTiles, nextGid := finalGid }

/-- The final per-tile-id deduplication of the animations list. -/
def dedupAnimationsById (l : List (Nat × List (Nat × Nat))) :
    List (Nat × List (Nat × Nat)) :=
  (l.foldl
    (fun (acc : List (Nat × List (Nat × Nat)) × List Nat) a =>
      if a.1 ∈ acc.2 then acc else (acc.1 ++ [a], acc.2 ++ [a.1]))
    ([], [])).1

/-! ## metatile.py: convert_metatile_to_tile_layers_with_attrs -/

/-- The layer-type dispatch of convert_metatile_to_tile_layers_with_attrs
(porycon v1): which tile lists feed the (bg3 ground, bg2 objects,
bg1 overhead) dictionaries; the omitted layer receives no tiles. -/
def convert_metatile_layer_dist (layer_type : MetatileLayerType)
    (bottom_tiles top_tiles : List TileRef) :
    List TileRef × List TileRef × List TileRef :=
  match layer_type with
  | .NORMAL => ([], bottom_tiles, top_tiles)
  | .COVERED => (bottom_tiles, top_tiles, [])
  | .SPLIT => (bottom_tiles, [], top_tiles)

/-- Whether an Except value is an error (a raised Python exception). -/
def isError {ε α : Type} : Except ε α → Bool
  | .error _ => true
  | .ok _ => false

/-! ## Theorems -/

theorem tableFind_append (t s : GidTable) (b : List Nat) :
    tableFind (t ++ s) b =
      match tableFind t b with
      | some g => some g
      | none => tableFind s b := by
  induction t with
  | nil => simp [tableFind]
  | cons p rest ih =>
      simp only [List.cons_append, tableFind]
      by_cases h : p.1 = b <;> simp [h, ih]

theorem parseU16Pairs_length (data : List Nat) :
    (parseU16Pairs data).length = data.length / 2 := by
  match data with
  | [] => simp [parseU16Pairs]
  | [a] => simp [parseU16Pairs]
  | a :: b :: rest =>
      simp only [parseU16Pairs, List.length_cons]
      rw [parseU16Pairs_length rest]
      omega

theorem parseU16Pairs_append_even (data : List Nat) (b : Nat)
    (h : data.length % 2 = 0) :
    parseU16Pairs (data ++ [b]) = parseU16Pairs data := by
  match data with
  | [] => simp [parseU16Pairs]
  | [a] => simp at h
  | x :: y :: rest =>
      have h2 : rest.length % 2 = 0 := by
        simp only [List.length_cons] at h; omega
      simp only [List.cons_append, parseU16Pairs, List.append_eq]
      rw [parseU16Pairs_append_even rest b h2]

/-- C4.  Layer distribution is the pure mapping: Normal sends the
bottom composite to the Objects plane (bg2) and the top composite to
the Overhead plane (bg1); Covered sends bottom to Ground (bg3) and top
to Objects (bg2); Split sends bottom to Ground (bg3) and top to
Overhead (bg1); in each case the remaining third plane holds atlas
slot 0 at that cell (respectively receives no tiles in the v1 tile
distributor). -/
theorem layer_distribution_c4 (bottom_gid top_gid : Nat)
    (bottom_tiles top_tiles : List TileRef) :
    assignCellLayers .NORMAL bottom_gid top_gid = (0, bottom_gid, top_gid) ∧
    assignCellLayers .COVERED bottom_gid top_gid = (bottom_gid, top_gid, 0) ∧
    assignCellLayers .SPLIT bottom_gid top_gid = (bottom_gid, 0, top_gid) ∧
    convert_metatile_layer_dist .NORMAL bottom_tiles top_tiles
      = ([], bottom_tiles, top_tiles) ∧
    convert_metatile_layer_dist .COVERED bottom_tiles top_tiles
      = (bottom_tiles, top_tiles, []) ∧
    convert_metatile_layer_dist .SPLIT bottom_tiles top_tiles
      = (bottom_tiles, [], top_tiles) := by
  refine ⟨rfl, rfl, rfl, rfl, rfl, rfl⟩

/-- C9.  read_map_bin raises its format error exactly when the number
of 16-bit records in the byte stream (length // 2, a trailing odd byte
dropped) differs from width * height; and the caller's documented
fallback recovers by re-reading with the file-size-inferred halved
dimensions whenever those account exactly for the records. -/
theorem map_bin_format_error_c9 (data : List Nat) (w h : Nat) :
    (isError (read_map_bin data w h) = true ↔ data.length / 2 ≠ w * h) ∧
    (isError (read_map_bin data w h) = true →
      0 < w / 2 → 0 < h / 2 → data.length / 2 = (w / 2) * (h / 2) →
      ∃ m, read_and_validate_map_data data w h = some (m, w / 2, h / 2)) := by
  have hlen := parseU16Pairs_length data
  have key : isError (read_map_bin data w h) = true ↔
      (parseU16Pairs data).length ≠ w * h := by
    by_cases hx : (parseU16Pairs data).length = w * h
    · simp [read_map_bin, isError, hx]
    · simp [read_map_bin, isError, hx]
  constructor
  · rw [key, hlen]
  · intro herr hw hh hinfer
    have hbad : (parseU16Pairs data).length ≠ w * h := key.mp herr
    have hne : data.length / 2 ≠ w * h := by rw [← hlen]; exact hbad
    have hgood : (parseU16Pairs data).length = (w / 2) * (h / 2) := by omega
    have herrmain : read_map_bin data w h = Except.error "entry count mismatch" := by
      simp [read_map_bin, hbad]
    have hok : read_map_bin data (w / 2) (h / 2) = Except.ok
        ((List.range (h / 2)).map fun y =>
          (List.range (w / 2)).map fun x =>
            (parseU16Pairs data).getD (y * (w / 2) + x) 0) := by
      simp [read_map_bin, hgood]
    refine ⟨(List.range (h / 2)).map fun y =>
      (List.range (w / 2)).map fun x =>
        (parseU16Pairs data).getD (y * (w / 2) + x) 0, ?_⟩
    simp [read_and_validate_map_data, herrmain, hok, hne, hw, hh, hinfer]
    exact fun hcontra => hne (hinfer.trans hcontra)

/-- Witness for C9 at a concrete input: a 2-byte file declared as 2x2
fails the format check, and re-reading at the inferred 1x1 dimensions
succeeds. -/
theorem map_bin_format_error_c9_witness :
    isError (read_map_bin [5, 1] 2 2) = true ∧
    ∃ m, read_and_validate_map_data [5, 1] 2 2 = some (m, 1, 1) := by
  have t := map_bin_format_error_c9 [5, 1] 2 2
  have herr : isError (read_map_bin [5, 1] 2 2) = true :=
    t.1.mpr (by decide)
  exact ⟨herr, t.2 herr (by decide) (by decide) (by decide)⟩

/-- C10.  The map-grid decoder silently drops a trailing odd byte: a
file of 2*w*h + 1 bytes decodes to exactly the same records as the
2*w*h-byte file, raising nothing (and recording nothing; read_map_bin
has no diagnostic channel). -/
theorem trailing_byte_ignored_c10 (w h b : Nat) (data : List Nat)
    (hlen : data.length = 2 * w * h) :
    read_map_bin (data ++ [b]) w h = read_map_bin data w h ∧
    isError (read_map_bin data w h) = false := by
  have hk : data.length = 2 * (w * h) := by rw [hlen, Nat.mul_assoc]
  have heven : data.length % 2 = 0 := by omega
  have hpar := parseU16Pairs_append_even data b heven
  have hcnt := parseU16Pairs_length data
  constructor
  · simp [read_map_bin, hpar]
  · simp only [read_map_bin, isError]
    have hwh : (parseU16Pairs data).length = w * h := by omega
    simp [hwh]

/-- Witness for C10 at a concrete input: a 9-byte file for a 2x2 map
decodes identically to its 8-byte prefix, successfully. -/
theorem trailing_byte_ignored_c10_witness :
    read_map_bin [1, 0, 2, 0, 3, 0, 4, 0, 9] 2 2
      = read_map_bin [1, 0, 2, 0, 3, 0, 4, 0] 2 2 ∧
    isError (read_map_bin [1, 0, 2, 0, 3, 0, 4, 0] 2 2) = false := by
  have t := trailing_byte_ignored_c10 2 2 9 [1, 0, 2, 0, 3, 0, 4, 0]
    (by decide)
  exact t

/-- Invariant of the (image_to_gid, next_gid) pair: the counter is at
least 1, every assigned GID lies in [1, next_gid), and no GID is shared
by two different byte contents. -/
def GoodTable (t : GidTable) (next : Nat) : Prop :=
  1 ≤ next ∧
  (∀ b g, tableFind t b = some g → 1 ≤ g ∧ g < next) ∧
  (∀ b b' g, tableFind t b = some g → tableFind t b' = some g → b = b')

theorem goodTable_init : GoodTable [] 1 := by
  refine ⟨le_refl 1, ?_, ?_⟩
  · intro b g h; simp [tableFind] at h
  · intro b b' g h; simp [tableFind] at h

theorem internalize_find_self (t : GidTable) (n : Nat) (b : List Nat) :
    tableFind (internalize t n b).2.1 b = some (internalize t n b).1 := by
  unfold internalize
  cases h : tableFind t b with
  | some g => simp [h]
  | none => simp [h, tableFind_append, tableFind]

theorem internalize_find_mono (t : GidTable) (n : Nat) (c b : List Nat)
    (g : Nat) (h : tableFind t b = some g) :
    tableFind (internalize t n c).2.1 b = some g := by
  unfold internalize
  cases hc : tableFind t c with
  | some g0 => simpa [hc]
  | none => simp [hc, tableFind_append, h]

theorem internalize_next_mono (t : GidTable) (n : Nat) (c : List Nat) :
    n ≤ (internalize t n c).2.2 := by
  unfold internalize
  cases hc : tableFind t c <;> simp [hc]

theorem internalize_result_bounds (t : GidTable) (n : Nat) (b : List Nat)
    (h : GoodTable t n) :
    1 ≤ (internalize t n b).1 ∧
    (internalize t n b).1 < (internalize t n b).2.2 := by
  obtain ⟨h1, h2, _⟩ := h
  unfold internalize
  cases hb : tableFind t b with
  | some g => simpa [hb] using h2 b g hb
  | none => simp [hb]; omega

theorem internalize_good (t : GidTable) (n : Nat) (c : List Nat)
    (h : GoodTable t n) :
    GoodTable (internalize t n c).2.1 (internalize t n c).2.2 := by
  obtain ⟨h1, h2, h3⟩ := h
  unfold internalize
  cases hc : tableFind t c with
  | some g => simpa [hc] using ⟨h1, h2, h3⟩
  | none =>
      simp only [hc]
      refine ⟨by omega, ?_, ?_⟩
      · intro b g hf
        rw [tableFind_append] at hf
        cases hfb : tableFind t b with
        | some g0 =>
            rw [hfb] at hf
            have := h2 b g0 hfb
            simp only [Option.some.injEq] at hf
            omega
        | none =>
            rw [hfb] at hf
            simp only [tableFind] at hf
            by_cases hcb : c = b
            · simp [hcb] at hf; omega
            · simp [hcb] at hf
      · intro b b' g hf hf'
        rw [tableFind_append] at hf hf'
        cases hfb : tableFind t b with
        | some g0 =>
            rw [hfb] at hf
            simp only [Option.some.injEq] at hf
            subst hf
            cases hfb' : tableFind t b' with
            | some g1 =>
                rw [hfb'] at hf'
                simp only [Option.some.injEq] at hf'
                exact h3 b b' g0 hfb (hf' ▸ hfb')
            | none =>
                rw [hfb'] at hf'
                simp only [tableFind] at hf'
                by_cases hcb : c = b'
                · simp [hcb] at hf'
                  have := h2 b g0 hfb
                  omega
                · simp [hcb] at hf'
        | none =>
            rw [hfb] at hf
            simp only [tableFind] at hf
            by_cases hcb : c = b
            · simp [hcb] at hf
              cases hfb' : tableFind t b' with
              | some g1 =>
                  rw [hfb'] at hf'
                  simp only [Option.some.injEq] at hf'
                  have := h2 b' g1 hfb'
                  omega
              | none =>
                  rw [hfb'] at hf'
                  simp only [tableFind] at hf'
                  by_cases hcb' : c = b'
                  · rw [← hcb, ← hcb']
                  · simp [hcb'] at hf'
            · simp [hcb] at hf

/-- A fold of internalisations from an arbitrary starting state. -/
def dedupFold (s : GidTable × Nat) (cs : List (List Nat)) :
    GidTable × Nat :=
  cs.foldl (fun s b => (internalize s.1 s.2 b).2) s

theorem runDedup_eq_dedupFold (cs : List (List Nat)) :
    runDedup cs = dedupFold ([], 1) cs := rfl

theorem dedupFold_good (s : GidTable × Nat) (cs : List (List Nat))
    (h : GoodTable s.1 s.2) :
    GoodTable (dedupFold s cs).1 (dedupFold s cs).2 := by
  induction cs generalizing s with
  | nil => exact h
  | cons c rest ih =>
      exact ih _ (internalize_good s.1 s.2 c h)

theorem dedupFold_find_mono (s : GidTable × Nat) (cs : List (List Nat))
    (b : List Nat) (g : Nat) (h : tableFind s.1 b = some g) :
    tableFind (dedupFold s cs).1 b = some g := by
  induction cs generalizing s with
  | nil => exact h
  | cons c rest ih =>
      exact ih _ (internalize_find_mono s.1 s.2 c b g h)

theorem dedupFold_next_mono (s : GidTable × Nat) (cs : List (List Nat)) :
    s.2 ≤ (dedupFold s cs).2 := by
  induction cs generalizing s with
  | nil => exact le_refl _
  | cons c rest ih =>
      exact le_trans (internalize_next_mono s.1 s.2 c) (ih _)

/-- C1.  Within one compilation run (image_to_gid starts empty with
next_gid = 1): internalizing a byte content again, after any number of
intervening internalisations, returns the slot id first assigned to
it; internalizing a different byte content never returns that id; the
assigned id is never 0; and the counter only increases. -/
theorem atlas_dedup_c1 (pre cs : List (List Nat)) (b b' : List Nat)
    (hbb : b ≠ b') (s0 : GidTable × Nat) (hs0 : s0 = runDedup pre) :
    let r := internalize s0.1 s0.2 b
    let s1 := dedupFold r.2 cs
    (internalize s1.1 s1.2 b).1 = r.1 ∧
    (internalize s1.1 s1.2 b').1 ≠ r.1 ∧
    r.1 ≠ 0 ∧
    s0.2 ≤ s1.2 := by
  subst hs0
  set s0 := runDedup pre with hs0
  intro r s1
  have good0 : GoodTable s0.1 s0.2 := by
    rw [show s0 = dedupFold ([], 1) pre from rfl]
    exact dedupFold_good _ _ goodTable_init
  have goodr : GoodTable r.2.1 r.2.2 := internalize_good _ _ _ good0
  have good1 : GoodTable s1.1 s1.2 := dedupFold_good _ _ goodr
  have findb : tableFind s1.1 b = some r.1 :=
    dedupFold_find_mono _ _ _ _ (internalize_find_self s0.1 s0.2 b)
  have rbounds := internalize_result_bounds s0.1 s0.2 b good0
  refine ⟨?_, ?_, ?_, ?_⟩
  · unfold internalize
    rw [findb]
  · unfold internalize
    cases hb' : tableFind s1.1 b' with
    | some g' =>
        simp only [hb']
        intro hcontra
        exact hbb (good1.2.2 b b' r.1 findb (hcontra ▸ hb'))
    | none =>
        simp only [hb']
        have := good1.2.1 b r.1 findb
        omega
  · show (internalize s0.1 s0.2 b).1 ≠ 0
    omega
  · exact le_trans (internalize_next_mono s0.1 s0.2 b)
      (dedupFold_next_mono r.2 cs)

/-- Witness for C1 at concrete inputs: in a fresh run, internalizing
[1,2], then [7], then [1,2] again returns the first id (1); [1,3]
gets a different id; 1 is nonzero. -/
theorem atlas_dedup_c1_witness :
    (let r := internalize (runDedup []).1 (runDedup []).2 [1, 2]
     let s1 := dedupFold r.2 [[7]]
     (internalize s1.1 s1.2 [1, 2]).1 = r.1 ∧
     (internalize s1.1 s1.2 [1, 3]).1 ≠ r.1 ∧
     r.1 ≠ 0 ∧
     (runDedup []).2 ≤ s1.2) :=
  atlas_dedup_c1 [] [[7]] [1, 2] [1, 3] (by decide) (runDedup []) rfl

/-- C2.  Raster-bank resolution of _render_tile_grid: a tile id below
512 only ever resolves to the primary sheet at index t (first
conjunct), and does resolve there whenever the primary sheet has tile
t (second); a tile id of 512 or more resolves to the secondary sheet
at t - 512 whenever that sheet is loaded and has that index (third);
otherwise — secondary sheet missing, or lacking that index — it falls
back to the primary sheet at the same offset t - 512 when the primary
has it (fourth). -/
theorem vram_resolution_c2 (env : BankEnv) (p s : String) (t : Nat)
    (pimg : TilesetImage) :
    (t < 512 → ∀ name aid img,
        resolveRasterSource env p s t = some (name, aid, img) →
        name = p ∧ aid = t ∧ env.lookupImage p = some img) ∧
    (t < 512 → env.lookupImage p = some pimg → t < tileCount pimg →
        resolveRasterSource env p s t = some (p, t, pimg)) ∧
    (∀ simg, 512 ≤ t → env.lookupImage s = some simg →
        t - 512 < tileCount simg →
        resolveRasterSource env p s t = some (s, t - 512, simg)) ∧
    (512 ≤ t →
        (env.lookupImage s = none ∨
          ∃ simg, env.lookupImage s = some simg ∧
            tileCount simg ≤ t - 512) →
        env.lookupImage p = some pimg → t - 512 < tileCount pimg →
        resolveRasterSource env p s t = some (p, t - 512, pimg)) := by
  have h512 : NUM_TILES_IN_PRIMARY_VRAM = 512 := rfl
  refine ⟨?_, ?_, ?_, ?_⟩
  · intro ht name aid img hres
    simp only [resolveRasterSource, h512, if_pos ht] at hres
    cases hlp : env.lookupImage p with
    | none =>
        simp only [hlp] at hres
        simp at hres
    | some img0 =>
        by_cases hc : t < tileCount img0
        · simp only [hlp, if_pos hc, Option.some.injEq,
            Prod.mk.injEq] at hres
          exact ⟨hres.1.symm, hres.2.1.symm,
            congrArg some hres.2.2⟩
        · simp only [hlp, if_neg hc] at hres
          simp at hres
  · intro ht hp hc
    simp only [resolveRasterSource, h512, if_pos ht, hp, if_pos hc]
  · intro simg ht hs hc
    have hnl : ¬ t < 512 := Nat.not_lt.mpr ht
    simp only [resolveRasterSource, h512, if_neg hnl, hs, if_pos hc]
  · intro ht hmiss hp hc
    have hnl : ¬ t < 512 := Nat.not_lt.mpr ht
    cases hmiss with
    | inl hsnone =>
        have hsp : s ≠ p := by
          intro he; rw [he, hp] at hsnone; cases hsnone
        simp only [resolveRasterSource, h512, if_neg hnl, hsnone,
          hp, if_pos hc]
        simp [hsp]
    | inr hex =>
        obtain ⟨simg, hs, hle⟩ := hex
        have hsp : s ≠ p := by
          intro he
          rw [he, hp] at hs
          obtain rfl := Option.some.injEq .. ▸ hs
          omega
        have hnb : ¬ t - 512 < tileCount simg := by omega
        simp only [resolveRasterSource, h512, if_neg hnl, hs, if_neg hnb,
          hp, if_pos hc]
        simp [hsp]

/-- Concrete tilesets for the C2 witness: the primary sheet holds two
8x8 tiles, the secondary holds one. -/
def pTsC2 : TilesetImage := ⟨⟨16, 8, fun _ _ => 1⟩, fun _ => (0, 0, 0, 255)⟩

def sTsC2 : TilesetImage := ⟨⟨8, 8, fun _ _ => 2⟩, fun _ => (0, 0, 0, 255)⟩

def envC2 : BankEnv :=
  ⟨fun n => if n = "p" then some pTsC2
            else if n = "s" then some sTsC2 else none,
   fun _ => []⟩

/-- Witness for C2 at concrete inputs: tile 1 comes from the primary
sheet; tile 512 from the secondary sheet at 0; tile 513 (beyond the
one-tile secondary sheet) falls back to the primary sheet at 1. -/
theorem vram_resolution_c2_witness :
    resolveRasterSource envC2 "p" "s" 1 = some ("p", 1, pTsC2) ∧
    resolveRasterSource envC2 "p" "s" 512 = some ("s", 0, sTsC2) ∧
    resolveRasterSource envC2 "p" "s" 513 = some ("p", 1, pTsC2) := by
  refine ⟨?_, ?_, ?_⟩
  · exact (vram_resolution_c2 envC2 "p" "s" 1 pTsC2).2.1
      (by decide) rfl (by decide)
  · exact (vram_resolution_c2 envC2 "p" "s" 512 pTsC2).2.2.1 sTsC2
      (by decide) rfl (by decide)
  · exact (vram_resolution_c2 envC2 "p" "s" 513 pTsC2).2.2.2
      (by decide) (Or.inr ⟨sTsC2, rfl, by decide⟩) rfl (by decide)

/-- C3.  Palette-bank resolution of _render_tile_grid: palette indices
below 6 resolve from the primary tileset's palette slots; indices 6 and
up resolve from the secondary tileset's slots whenever a secondary
tileset name is present (the data model always has both banks active);
and the choice is a function of the palette index alone, independent of
which bank supplied the tile's raster. -/
theorem palette_resolution_c3 (p s : String) (palette_index : Nat) :
    (palette_index < 6 → paletteSourceName p s palette_index = p) ∧
    (6 ≤ palette_index → s ≠ "" → paletteSourceName p s palette_index = s) ∧
    (∀ r r' : TileRef, r.paletteIndex = r'.paletteIndex →
      paletteSourceName p s r.paletteIndex
        = paletteSourceName p s r'.paletteIndex) := by
  refine ⟨?_, ?_, ?_⟩
  · intro hlt
    have : ¬ (6 ≤ palette_index ∧ s ≠ "") := by
      intro h; omega
    simp [paletteSourceName, this]
  · intro hge hs
    simp [paletteSourceName, hge, hs]
  · intro r r' he
    rw [he]

/-- Witness for C3 at concrete inputs: index 3 resolves from the
primary bank's palettes, index 9 from the secondary bank's. -/
theorem palette_resolution_c3_witness :
    paletteSourceName "a" "b" 3 = "a" ∧ paletteSourceName "a" "b" 9 = "b" :=
  ⟨(palette_resolution_c3 "a" "b" 3).1 (by decide),
   (palette_resolution_c3 "a" "b" 9).2.1 (by decide) (by decide)⟩

theorem blendPix_alpha_zero (d s : RGBA) (h : alphaOf s = 0) :
    blendPix d s = d := by
  obtain ⟨d1, d2, d3, d4⟩ := d
  simp only [blendPix, alphaOf] at h ⊢
  rw [h]
  simp [Nat.mul_div_cancel _ (show 0 < 255 by norm_num)]

theorem pasteMask_pix_outside (dest src : Img) (ox oy x y : Nat)
    (h : ¬(ox ≤ x ∧ x < ox + src.w ∧ oy ≤ y ∧ y < oy + src.h)) :
    (pasteMask dest src ox oy).pix x y = dest.pix x y := by
  simp [pasteMask, h]

theorem pasteMask_pix_alpha_zero (dest src : Img) (ox oy x y : Nat)
    (h : alphaOf (src.pix (x - ox) (y - oy)) = 0) :
    (pasteMask dest src ox oy).pix x y = dest.pix x y := by
  simp only [pasteMask]
  split
  · exact blendPix_alpha_zero _ _ h
  · rfl

theorem flipLeftRight_pix (i : Img) (x y : Nat) :
    (flipLeftRight i).pix x y = i.pix (i.w - 1 - x) y := rfl

theorem flipTopBottom_pix (i : Img) (x y : Nat) :
    (flipTopBottom i).pix x y = i.pix x (i.h - 1 - y) := rfl

theorem apply_palette_to_tile_w (t : PImg) (embedded : Nat → RGBA)
    (pal : List RGBA) : (apply_palette_to_tile t embedded pal).w = t.w := by
  unfold apply_palette_to_tile
  split <;> rfl

theorem apply_palette_to_tile_h (t : PImg) (embedded : Nat → RGBA)
    (pal : List RGBA) : (apply_palette_to_tile t embedded pal).h = t.h := by
  unfold apply_palette_to_tile
  split <;> rfl

/-- Both branches of apply_palette_to_tile force index-0 source pixels
fully transparent. -/
theorem apply_palette_to_tile_alpha_zero (t : PImg) (embedded : Nat → RGBA)
    (pal : List RGBA) (x y : Nat) (h : t.pix x y = 0) :
    (apply_palette_to_tile t embedded pal).pix x y = (0, 0, 0, 0) := by
  unfold apply_palette_to_tile
  split <;> simp [h]

/-- A rendered tile always has the 8x8 tile dimensions. -/
theorem render_tile_body_dims (env : BankEnv) (p s : String)
    (ref : TileRef) (img : Img)
    (h : render_tile_body env p s ref = some img) :
    img.w = TILE_SIZE ∧ img.h = TILE_SIZE := by
  simp only [render_tile_body] at h
  by_cases h0 : ref.tileId = 0
  · simp [h0] at h
  · simp only [h0, if_false] at h
    cases hr : resolveRasterSource env p s ref.tileId with
    | none => rw [hr] at h; simp at h
    | some trip =>
        rw [hr] at h
        obtain ⟨nm, aid, ts⟩ := trip
        simp only at h
        obtain rfl := (Option.some.inj h).symm
        constructor <;>
        · simp only [apply_ite Img.w, apply_ite Img.h, flipLeftRight,
            flipTopBottom, ite_self]
          cases hpal : ((env.lookupPalettes
              (paletteSourceName p s ref.paletteIndex)).getD
              ref.paletteIndex none) with
          | none => simp [hpal, extract_tile]
          | some pal =>
              simp only [hpal]
              split <;>
                simp [apply_palette_to_tile_w, apply_palette_to_tile_h,
                  extract_tile]

/-- If the resolved source tile has palette index 0 at (u, v) and a
palette is available, the rendered tile is fully transparent at the
flip-image of (u, v). -/
theorem render_tile_body_alpha_zero (env : BankEnv) (p s : String)
    (ref : TileRef) (trip : String × Nat × TilesetImage) (pal : List RGBA)
    (u v : Nat) (h0 : ref.tileId ≠ 0)
    (hres : resolveRasterSource env p s ref.tileId = some trip)
    (hpal : (env.lookupPalettes
        (paletteSourceName p s ref.paletteIndex)).getD
        ref.paletteIndex none = some pal)
    (hpalne : pal ≠ [])
    (hu : u < 8) (hv : v < 8)
    (hidx : (extract_tile trip.2.2 trip.2.1).pix u v = 0) :
    ∃ img, render_tile_body env p s ref = some img ∧
      alphaOf (img.pix (if ref.flipFlags % 2 = 1 then 7 - u else u)
        (if ref.flipFlags / 2 % 2 = 1 then 7 - v else v)) = 0 := by
  obtain ⟨nm, aid, ts⟩ := trip
  have hlt : ref.paletteIndex <
      (env.lookupPalettes (paletteSourceName p s ref.paletteIndex)).length := by
    by_contra hge
    rw [List.getD_eq_default _ _ (Nat.le_of_not_lt hge)] at hpal
    cases hpal
  have hne : env.lookupPalettes (paletteSourceName p s ref.paletteIndex)
      ≠ [] := by
    intro he
    rw [he] at hlt
    simp at hlt
  set c : Img := apply_palette_to_tile (extract_tile ts aid) ts.embedded pal
    with hc
  have hbody : render_tile_body env p s ref = some
      (if ref.flipFlags / 2 % 2 = 1 then
        flipTopBottom (if ref.flipFlags % 2 = 1 then flipLeftRight c else c)
      else (if ref.flipFlags % 2 = 1 then flipLeftRight c else c)) := by
    have hcond : env.lookupPalettes (paletteSourceName p s ref.paletteIndex)
        ≠ [] ∧ ref.paletteIndex <
          (env.lookupPalettes (paletteSourceName p s ref.paletteIndex)).length ∧
        pal ≠ [] := ⟨hne, hlt, hpalne⟩
    simp only [render_tile_body]
    rw [if_neg h0]
    simp only [hres, hpal, if_pos hcond]
  have hcw : c.w = 8 := by rw [hc, apply_palette_to_tile_w]; rfl
  have hch : c.h = 8 := by rw [hc, apply_palette_to_tile_h]; rfl
  have hzero : c.pix u v = (0, 0, 0, 0) :=
    apply_palette_to_tile_alpha_zero _ _ _ _ _ hidx
  refine ⟨_, hbody, ?_⟩
  by_cases hf1 : ref.flipFlags % 2 = 1 <;>
    by_cases hf2 : ref.flipFlags / 2 % 2 = 1
  · simp only [if_pos hf1, if_pos hf2, flipTopBottom, flipLeftRight, hcw, hch]
    rw [show (8 : Nat) - 1 - (7 - v) = v by omega,
      show (8 : Nat) - 1 - (7 - u) = u by omega, hzero]
    rfl
  · simp only [if_pos hf1, if_neg hf2, flipLeftRight, hcw]
    rw [show (8 : Nat) - 1 - (7 - u) = u by omega, hzero]
    rfl
  · simp only [if_neg hf1, if_pos hf2, flipTopBottom, hch]
    rw [show (8 : Nat) - 1 - (7 - v) = v by omega, hzero]
    rfl
  · simp only [if_neg hf1, if_neg hf2]
    rw [hzero]
    rfl

/-- C5.  In a rendered 16x16 composite, every source pixel whose
indexed colour is palette index 0 comes out fully transparent
(alpha 0), for every bank/palette combination: whichever sheet the
raster resolved to and whichever bank's palette list supplied the
applied palette, the composite pixel at the (flip-adjusted) quadrant
position of an index-0 source pixel has alpha 0. -/
theorem palette_zero_transparent_c5 (env : BankEnv) (p s : String)
    (t0 t1 t2 t3 : TileRef) (q u v : Nat) (ref : TileRef)
    (trip : String × Nat × TilesetImage) (pal : List RGBA)
    (composite : Img)
    (hq : q < 4) (hu : u < 8) (hv : v < 8)
    (href : [t0, t1, t2, t3].getD q ⟨0, 0, 0⟩ = ref)
    (hres : resolveRasterSource env p s ref.tileId = some trip)
    (hpal : (env.lookupPalettes
        (paletteSourceName p s ref.paletteIndex)).getD
        ref.paletteIndex none = some pal)
    (hpalne : pal ≠ [])
    (hidx : (extract_tile trip.2.2 trip.2.1).pix u v = 0)
    (hcomp : render_tile_grid env p s [t0, t1, t2, t3] = some composite) :
    alphaOf (composite.pix
      ((quadrantPos q).1 + (if ref.flipFlags % 2 = 1 then 7 - u else u))
      ((quadrantPos q).2 + (if ref.flipFlags / 2 % 2 = 1 then 7 - v else v)))
      = 0 := by
  set tu := (if ref.flipFlags % 2 = 1 then 7 - u else u) with htu
  set tv := (if ref.flipFlags / 2 % 2 = 1 then 7 - v else v) with htv
  have htub : tu < 8 := by rw [htu]; split <;> omega
  have htvb : tv < 8 := by rw [htv]; split <;> omega
  have hcomp' : composite =
      ([t0, t1, t2, t3].enum).foldl (gridStep env p s)
        (blankImg METATILE_SIZE METATILE_SIZE) := by
    simp only [render_tile_grid] at hcomp
    rw [if_neg (by simp : ¬ ([t0, t1, t2, t3].length ≠ 4))] at hcomp
    exact (Option.some.inj hcomp).symm
  have disjoint : ∀ i, i < 4 → i ≠ q →
      ¬((quadrantPos i).1 ≤ (quadrantPos q).1 + tu ∧
        (quadrantPos q).1 + tu < (quadrantPos i).1 + 8 ∧
        (quadrantPos i).2 ≤ (quadrantPos q).2 + tv ∧
        (quadrantPos q).2 + tv < (quadrantPos i).2 + 8) := by
    intro i hi hne
    interval_cases i <;> interval_cases q <;>
      simp [quadrantPos, TILE_SIZE] at * <;> omega
  have preserve_other : ∀ (acc : Img) (i : Nat) (r : TileRef),
      i < 4 → i ≠ q →
      (gridStep env p s acc (i, r)).pix
          ((quadrantPos q).1 + tu) ((quadrantPos q).2 + tv)
        = acc.pix ((quadrantPos q).1 + tu) ((quadrantPos q).2 + tv) := by
    intro acc i r hi hne
    unfold gridStep
    cases hb : render_tile_body env p s r with
    | none => rfl
    | some ti =>
        have hd := render_tile_body_dims env p s r ti hb
        apply pasteMask_pix_outside
        rw [hd.1, hd.2]
        exact disjoint i hi hne
  have own : ∀ acc : Img,
      (gridStep env p s acc (q, ref)).pix
          ((quadrantPos q).1 + tu) ((quadrantPos q).2 + tv)
        = acc.pix ((quadrantPos q).1 + tu) ((quadrantPos q).2 + tv) := by
    intro acc
    unfold gridStep
    by_cases h0 : ref.tileId = 0
    · rw [show render_tile_body env p s ref = none by
        simp [render_tile_body, h0]]
    · obtain ⟨img, hb, ha⟩ := render_tile_body_alpha_zero env p s ref
        trip pal u v h0 hres hpal hpalne hu hv hidx
      rw [hb]
      apply pasteMask_pix_alpha_zero
      rw [show (quadrantPos q).1 + tu - (quadrantPos q).1 = tu by omega,
        show (quadrantPos q).2 + tv - (quadrantPos q).2 = tv by omega]
      exact ha
  rw [hcomp']
  have henum : ([t0, t1, t2, t3].enum)
      = [(0, t0), (1, t1), (2, t2), (3, t3)] := rfl
  rw [henum]
  simp only [List.foldl_cons, List.foldl_nil]
  interval_cases q
  · obtain rfl : t0 = ref := href
    rw [preserve_other _ 3 t3 (by omega) (by omega),
      preserve_other _ 2 t2 (by omega) (by omega),
      preserve_other _ 1 t1 (by omega) (by omega),
      own _]
    rfl
  · obtain rfl : t1 = ref := href
    rw [preserve_other _ 3 t3 (by omega) (by omega),
      preserve_other _ 2 t2 (by omega) (by omega),
      own _,
      preserve_other _ 0 t0 (by omega) (by omega)]
    rfl
  · obtain rfl : t2 = ref := href
    rw [preserve_other _ 3 t3 (by omega) (by omega),
      own _,
      preserve_other _ 1 t1 (by omega) (by omega),
      preserve_other _ 0 t0 (by omega) (by omega)]
    rfl
  · obtain rfl : t3 = ref := href
    rw [own _,
      preserve_other _ 2 t2 (by omega) (by omega),
      preserve_other _ 1 t1 (by omega) (by omega),
      preserve_other _ 0 t0 (by omega) (by omega)]
    rfl

/-- Concrete data for the C5 witness: a primary sheet whose pixels are
all palette index 0, and one valid 16-colour palette in slot 0. -/
def pTsC5 : TilesetImage := ⟨⟨16, 8, fun _ _ => 0⟩, fun _ => (9, 9, 9, 255)⟩

def palC5 : List RGBA := List.replicate 16 (10, 20, 30, 255)

def envC5 : BankEnv :=
  ⟨fun n => if n = "p" then some pTsC5 else none,
   fun n => if n = "p" then [some palC5] else []⟩

/-- Witness for C5 at concrete inputs: quadrant 0 holds tile 1 (all
pixels index 0, palette slot 0 applied); the composite is transparent
at pixel (0, 0). -/
theorem palette_zero_transparent_c5_witness :
    ∃ composite, render_tile_grid envC5 "p" "s"
        [⟨1, 0, 0⟩, ⟨0, 0, 0⟩, ⟨0, 0, 0⟩, ⟨0, 0, 0⟩] = some composite ∧
      alphaOf (composite.pix 0 0) = 0 := by
  refine ⟨_, rfl, ?_⟩
  exact palette_zero_transparent_c5 envC5 "p" "s"
    ⟨1, 0, 0⟩ ⟨0, 0, 0⟩ ⟨0, 0, 0⟩ ⟨0, 0, 0⟩ 0 0 0 ⟨1, 0, 0⟩
    ("p", 1, pTsC5) palC5 _
    (by decide) (by decide) (by decide) rfl rfl rfl
    (by simp [palC5]) rfl rfl

/-- Environment for the C6 scenario (never consulted: every TileRef has
tile id 0). -/
def envC6 : BankEnv := ⟨fun _ => none, fun _ => []⟩

/-- Composition table for the C6 scenario: 6 metatiles of 8 records,
all (tile_id 0, no flips, palette 0). -/
def zerosC6 : List TileRef := List.replicate 48 ⟨0, 0, 0⟩

/-- Counterexample to C6 as stated: in the all-transparent Covered
scenario the bottom and top composites are byte-identical, so the
deduplicator returns the SAME slot id (1) for both — they are not
distinct. -/
theorem metatile_scenario_c6_counterexample :
    ∃ res, process_single_metatile envC6 5 "p" zerosC6 [(5, 1)] "p" "s"
        [] [] 1 = Except.ok res ∧
      assocFind res.metatileToGid (5, "p", 1, false) = some 1 ∧
      assocFind res.metatileToGid (5, "p", 1, true) = some 1 := by
  set_option maxRecDepth 10000 in
  exact ⟨_, rfl, rfl, rfl⟩

/-- C6 (amended).  For a map whose cells all hold metatile 5 of layer
type Covered with all 8 TileRefs at tile id 0: both composites are
fully transparent, both halves route to the Ground (bg3) and Objects
(bg2) planes at every cell, the two composites internalize to the same
non-zero slot id 1 (byte-identical content is deduplicated), and the
Overhead plane (bg1) is entirely zero. -/
theorem metatile_scenario_c6 :
    ∃ res, process_single_metatile envC6 5 "p" zerosC6 [(5, 1)] "p" "s"
        [] [] 1 = Except.ok res ∧
      res.images = some (blankImg METATILE_SIZE METATILE_SIZE,
        blankImg METATILE_SIZE METATILE_SIZE) ∧
      assocFind res.metatileToGid (5, "p", 1, false) = some 1 ∧
      assocFind res.metatileToGid (5, "p", 1, true) = some 1 ∧
      (1 : Nat) ≠ 0 ∧
      build_map_layers [[5, 5], [5, 5]] 2 2 res.metatileToGid
          [(5, 1)] [] "p" "s"
        = some ([1, 1, 1, 1], [1, 1, 1, 1], [0, 0, 0, 0]) := by
  set_option maxRecDepth 10000 in
  exact ⟨_, rfl, rfl, rfl, rfl, by decide, rfl⟩

/-- C8 (code bug).  Per-cell metatile processing is NOT exception-free
over the full attribute nibble range: the MetatileLayerType enum only
has members 0, 1 and 2, so for any decoded layer-type nibble 3..15 the
MetatileLayerType(value) call at the top of process_single_metatile
raises ValueError, which escapes the per-metatile scope (there is no
enclosing try) and fails the whole map's compilation — contradicting
the documented propagation policy that only FormatError on the primary
grid or primary raster may do so.  Nibbles 0..2 convert fine. -/
theorem layer_type_crash_c8 :
    process_single_metatile envC6 0 "p" (List.replicate 8 ⟨0, 0, 0⟩)
        [(0, 3)] "p" "s" [] [] 1
      = Except.error "ValueError: not a valid MetatileLayerType" ∧
    layerTypeOfVal 3 = none ∧
    (((List.range 16).drop 3).all fun v => (layerTypeOfVal v).isNone)
      = true ∧
    (((List.range 3).all fun v => (layerTypeOfVal v).isSome)) = true := by
  exact ⟨rfl, rfl, by decide, by decide⟩

/-- Animation catalog entry for the C7 counterexample: one tile-strip
animation (is_metatile false) over a single tile 508, playback order
[0, 1, 0, 2], four byte-identical frame images, affecting bottom
quadrant 0 of a metatile whose layer GID is 5. -/
def infoC7 : AnimInfo :=
  ⟨"anim", List.replicate 4 (blankImg TILE_SIZE TILE_SIZE), 133,
   some [0, 1, 0, 2], 508, 1, false, 5, 0⟩

def mtilesC7 : List TileRef := ⟨508, 0, 0⟩ :: List.replicate 7 ⟨0, 0, 0⟩

def usedMC7 : UsedMetatiles :=
  [((0, "p", 0), (blankImg METATILE_SIZE METATILE_SIZE,
    blankImg METATILE_SIZE METATILE_SIZE))]

def compC7 : List ((Nat × String × Nat) × List TileRef) :=
  [((0, "p", 0), mtilesC7)]

/-- Counterexample to C7 as stated: for a tile-strip animation with
playback order [0, 1, 0, 2] (one animated bottom tile, none on top),
the single emitted timeline entry carries four frame pairs whose slot
ids are four FRESH consecutive tileset slots (0, 1, 2, 3 here) — the
per-step composites are not internalized through the deduplicator, so
playback positions 0 and 2 get distinct slot ids even though their
frame images are byte-identical. -/
theorem animation_c7_counterexample :
    (processMetatileAnimationGroup (0, "p", 0) [infoC7] [5] usedMC7
        compC7 [5] [] 1).animations
      = [(4, [(0, 133), (1, 133), (2, 133), (3, 133)])] ∧
    ¬ (((processMetatileAnimationGroup (0, "p", 0) [infoC7] [5] usedMC7
          compC7 [5] [] 1).animations.getD 0 (0, [])).2.getD 0 (0, 0)).1
      = (((processMetatileAnimationGroup (0, "p", 0) [infoC7] [5] usedMC7
          compC7 [5] [] 1).animations.getD 0 (0, [])).2.getD 2 (0, 0)).1 := by
  constructor
  · rfl
  · intro h
    rw [show (processMetatileAnimationGroup (0, "p", 0) [infoC7] [5]
        usedMC7 compC7 [5] [] 1).animations
      = [(4, [(0, 133), (1, 133), (2, 133), (3, 133)])] from rfl] at h
    simp at h

/-- C7 (amended).  For a metatile whose bottom half contains exactly
one animated tile with the 4-entry playback order [0, 1, 0, 2] and
whose top half contains no animated tile, PHASE 2 emits exactly one
timeline entry, keyed by the bottom composite's layer-distributed slot
(gid - 1), containing exactly 4 (slot, duration) frame pairs.  The
pairs at playback positions 0 and 2 carry the identical underlying
slot id exactly when the animation's frames are pre-rendered 16x16
metatile frames (the playback order then indexes a per-source-frame
slot map); for an 8x8 tile-strip animation each playback step is
appended as a fresh tileset slot with no deduplication, so positions 0
and 2 carry distinct slot ids. -/
theorem animation_timeline_c7 (nm : String) (frames : List Img)
    (d base g n : Nat) (usedGids : List Nat) (mk : Nat × String × Nat)
    (baseBottom baseTop : Img) (tiles7 : List TileRef) (isMeta : Bool)
    (hg : g ∈ usedGids) (hf : 3 ≤ frames.length) :
    let info : AnimInfo :=
      ⟨nm, frames, d, some [0, 1, 0, 2], base, 1, isMeta, g, 0⟩
    let mtiles : List TileRef := ⟨base, 0, 0⟩ :: tiles7
    let out := processMetatileAnimationGroup mk [info] [g]
        [(mk, (baseBottom, baseTop))] [(mk, mtiles)] usedGids [] n
    out.animations.length = 1 ∧
    (out.animations.getD 0 (0, [])).1 = g - 1 ∧
    (out.animations.getD 0 (0, [])).2.length = 4 ∧
    (isMeta = true →
      ((out.animations.getD 0 (0, [])).2.getD 0 (0, 0)).1
        = ((out.animations.getD 0 (0, [])).2.getD 2 (0, 0)).1) ∧
    (isMeta = false →
      ((out.animations.getD 0 (0, [])).2.getD 0 (0, 0)).1
        ≠ ((out.animations.getD 0 (0, [])).2.getD 2 (0, 0)).1) := by
  intro info mtiles out
  have h0f : (0 : Nat) < frames.length := by omega
  have h1f : (1 : Nat) < frames.length := by omega
  have h2f : (2 : Nat) < frames.length := by omega
  cases isMeta with
  | true =>
      have hinfo : info
          = ⟨nm, frames, d, some [0, 1, 0, 2], base, 1, true, g, 0⟩ := rfl
      have hout : out.animations =
          [(g - 1, [(n - 1 + 0, d), (n - 1 + 1, d), (n - 1 + 0, d),
            (n - 1 + 2, d)])] := by
        show (processMetatileAnimationGroup mk [info] [g]
          [(mk, (baseBottom, baseTop))] [(mk, mtiles)] usedGids [] n).animations
          = _
        rw [hinfo]
        simp [processMetatileAnimationGroup, assocFind, List.filterMap,
          h0f, h1f, h2f, hg]
      rw [hout]
      refine ⟨rfl, rfl, rfl, ?_, ?_⟩
      · intro _; rfl
      · intro h; cases h
  | false =>
      have hinfo : info
          = ⟨nm, frames, d, some [0, 1, 0, 2], base, 1, false, g, 0⟩ := rfl
      have hmt : mtiles = ⟨base, 0, 0⟩ :: tiles7 := rfl
      have hout : out.animations =
          [(g - 1, [(n - 1 + 0, d), (n - 1 + 1, d), (n - 1 + 2, d),
            (n - 1 + 3, d)])] := by
        show (processMetatileAnimationGroup mk [info] [g]
          [(mk, (baseBottom, baseTop))] [(mk, mtiles)] usedGids [] n).animations
          = _
        rw [hinfo, hmt]
        simp [processMetatileAnimationGroup, assocFind, collectStripTiles,
          inAnimatedRange, ordUpdate, setAdd, stripNumFrames, stripDuration,
          List.filter, hg, List.range_succ, List.getD]
      rw [hout]
      refine ⟨rfl, rfl, rfl, ?_, ?_⟩
      · intro h; cases h
      · intro _
        show n - 1 + 0 ≠ n - 1 + 2
        omega

/-- Witness for C7 at concrete inputs: a pre-rendered metatile-frame
animation with 3 source frames, playback [0, 1, 0, 2], layer GID 5,
starting at next_gid 1. -/
theorem animation_timeline_c7_witness :
    (let info : AnimInfo :=
       ⟨"anim", List.replicate 3 (blankImg METATILE_SIZE METATILE_SIZE),
        150, some [0, 1, 0, 2], 508, 1, true, 5, 0⟩
     let mtiles : List TileRef := ⟨508, 0, 0⟩ :: List.replicate 7 ⟨0, 0, 0⟩
     let out := processMetatileAnimationGroup (0, "p", 0) [info] [5]
         [((0, "p", 0), (blankImg METATILE_SIZE METATILE_SIZE,
           blankImg METATILE_SIZE METATILE_SIZE))]
         [((0, "p", 0), mtiles)] [5] [] 1
     out.animations.length = 1 ∧
     (out.animations.getD 0 (0, [])).1 = 5 - 1 ∧
     (out.animations.getD 0 (0, [])).2.length = 4 ∧
     (true = true →
       ((out.animations.getD 0 (0, [])).2.getD 0 (0, 0)).1
         = ((out.animations.getD 0 (0, [])).2.getD 2 (0, 0)).1) ∧
     (true = false →
       ((out.animations.getD 0 (0, [])).2.getD 0 (0, 0)).1
         ≠ ((out.animations.getD 0 (0, [])).2.getD 2 (0, 0)).1)) :=
  animation_timeline_c7 "anim"
    (List.replicate 3 (blankImg METATILE_SIZE METATILE_SIZE)) 150 508 5 1
    [5] (0, "p", 0) (blankImg METATILE_SIZE METATILE_SIZE)
    (blankImg METATILE_SIZE METATILE_SIZE) (List.replicate 7 ⟨0, 0, 0⟩)
    true (by decide) (by simp)
